import Mathlib

/-!
Shallow embedding of the VideoVault server core: the data model
(`shared/schema.ts`), the credential-store operations (`server/storage.ts`),
the authentication layer (`server/auth.ts`) and the HTTP route handlers
(the Express routes file).  Database values that are nullable in the
schema are embedded as `Option`; timestamps are abstract `Nat` instants;
JSON response objects built as object literals in the handlers are embedded
as association lists from field names to JSON values, so that field
presence and absence is part of the model.
-/

namespace VideoVault

/-- JSON values as they appear in the handlers' response literals. -/
inductive JsonVal where
  | str (s : String)
  | num (n : Nat)
  | boolean (b : Bool)
  | null
deriving DecidableEq, Repr

/-- Role column of the `users` table: `text("role", { enum: ["USER", "ADMIN"] })`. -/
inductive Role where
  | USER
  | ADMIN
deriving DecidableEq, Repr

/-- String form of a role, as stored in the `role` text column. -/
def Role.toText : Role → String
  | .USER => "USER"
  | .ADMIN => "ADMIN"

/-- Row of the `users` table (`shared/schema.ts`).  `avatarUrl` and
`createdAt` are nullable columns; `role` defaults to USER at insert. -/
structure User where
  id : String
  email : String
  password : String
  avatarUrl : Option String
  role : Role
  createdAt : Option Nat
deriving DecidableEq, Repr

/-- Row of the `videos` table (`shared/schema.ts`).  Every column except
`id`, `title` and `sourceUrl` is nullable in the schema, hence `Option`. -/
structure Video where
  id : String
  title : String
  description : Option String
  sourceUrl : String
  thumbnailUrl : Option String
  duration : Option String
  views : Option Nat
  canPlay : Option Bool
  canShare : Option Bool
  canDownload : Option Bool
  createdAt : Option Nat
  updatedAt : Option Nat
deriving DecidableEq, Repr

/-- `storage.getUserByEmail`: select from users where email = email. -/
def getUserByEmail (store : List User) (email : String) : Option User :=
  store.find? (fun u => u.email == email)

/-- `storage.getVideo`: select from videos where id = id. -/
def getVideo (store : List Video) (id : String) : Option Video :=
  store.find? (fun v => v.id == id)

/-- `storage.incrementVideoViews`: `set({ views: sql(views + 1) }) where id = id`.
SQL arithmetic on NULL yields NULL, hence `Option.map`. -/
def incrementVideoViews (store : List Video) (id : String) : List Video :=
  store.map (fun v => if v.id == id then { v with views := v.views.map (· + 1) } else v)

/-- HTTP error response: status code and message body. -/
structure HttpErr where
  status : Nat
  message : String
deriving DecidableEq, Repr

/-- `requireAuth` middleware (`server/auth.ts`): 401 when no session principal. -/
def requireAuth (principal : Option User) : Except HttpErr Unit :=
  match principal with
  | none => .error ⟨401, "Authentication required"⟩
  | some _ => .ok ()

/-- `requireAdmin` middleware (`server/auth.ts`): 403 when the request is not
authenticated or the principal's role is not ADMIN — a single branch for both. -/
def requireAdmin (principal : Option User) : Except HttpErr Unit :=
  match principal with
  | none => .error ⟨403, "Admin access required"⟩
  | some u => if u.role ≠ Role.ADMIN then .error ⟨403, "Admin access required"⟩ else .ok ()

/-- Required access level of a route, per which gate middleware the routes
file attaches: none (public), `requireAuth`, or `requireAdmin`. -/
inductive RequiredLevel where
  | Public
  | Authenticated
  | Admin
deriving DecidableEq, Repr

/-- The access-control decision a route at a given level makes for a given
principal: public routes have no gate middleware, authenticated routes run
`requireAuth`, admin routes run `requireAdmin`. -/
def authorize (principal : Option User) (level : RequiredLevel) : Except HttpErr Unit :=
  match level with
  | .Public => .ok ()
  | .Authenticated => requireAuth principal
  | .Admin => requireAdmin principal

/-- JSON value for a nullable text column. -/
def jsonOfOptStr : Option String → JsonVal
  | none => .null
  | some s => .str s

/-- JSON value for a nullable integer column. -/
def jsonOfOptNat : Option Nat → JsonVal
  | none => .null
  | some n => .num n

/-- JSON value for a nullable boolean column. -/
def jsonOfOptBool : Option Bool → JsonVal
  | none => .null
  | some b => .boolean b

/-- The per-video object literal built inside `GET /api/videos`: the fields
the handler copies into `publicVideos`, in source order. -/
def projectForList (v : Video) : List (String × JsonVal) :=
  [ ("id", .str v.id)
  , ("title", .str v.title)
  , ("description", jsonOfOptStr v.description)
  , ("thumbnailUrl", jsonOfOptStr v.thumbnailUrl)
  , ("duration", jsonOfOptStr v.duration)
  , ("views", jsonOfOptNat v.views)
  , ("canPlay", jsonOfOptBool v.canPlay)
  , ("canShare", jsonOfOptBool v.canShare)
  , ("canDownload", jsonOfOptBool v.canDownload)
  , ("createdAt", jsonOfOptNat v.createdAt)
  ]

/-- `GET /api/videos` handler: `requireAuth`, then map every stored video
through the list projection. -/
def listVideosHandler (principal : Option User) (store : List Video) :
    Except HttpErr (List (List (String × JsonVal))) :=
  match requireAuth principal with
  | .error e => .error e
  | .ok () => .ok (store.map projectForList)

/-- The object literal built inside `GET /api/videos/:id`: the detail view
includes `sourceUrl`, and reports `views` as `(video.views || 0) + 1`. -/
def projectForDetail (v : Video) : List (String × JsonVal) :=
  [ ("id", .str v.id)
  , ("title", .str v.title)
  , ("description", jsonOfOptStr v.description)
  , ("sourceUrl", .str v.sourceUrl)
  , ("thumbnailUrl", jsonOfOptStr v.thumbnailUrl)
  , ("duration", jsonOfOptStr v.duration)
  , ("views", .num (v.views.getD 0 + 1))
  , ("canPlay", jsonOfOptBool v.canPlay)
  , ("canShare", jsonOfOptBool v.canShare)
  , ("canDownload", jsonOfOptBool v.canDownload)
  , ("createdAt", jsonOfOptNat v.createdAt)
  ]

/-- `GET /api/videos/:id` handler: `requireAuth`, 404 when the id is absent,
otherwise increment the stored view count and answer with the detail
literal.  Returns the response together with the store after the side
effect. -/
def detailHandler (principal : Option User) (store : List Video) (id : String) :
    Except HttpErr (List (String × JsonVal)) × List Video :=
  match requireAuth principal with
  | .error e => (.error e, store)
  | .ok () =>
    match getVideo store id with
    | none => (.error ⟨404, "Video not found"⟩, store)
    | some v => (.ok (projectForDetail v), incrementVideoViews store v.id)

/-- Result of `GET /api/videos/:id/download`: an error response or a
redirect to the video's `sourceUrl`. -/
inductive DownloadRes where
  | err (e : HttpErr)
  | redirect (url : String)
deriving DecidableEq, Repr

/-- `GET /api/videos/:id/download` handler: `requireAuth`, 404 when the id
is absent, 403 when `video.canDownload` is falsy (false or NULL), else a
redirect to `video.sourceUrl`. -/
def downloadHandler (principal : Option User) (store : List Video) (id : String) :
    DownloadRes :=
  match requireAuth principal with
  | .error e => .err e
  | .ok () =>
    match getVideo store id with
    | none => .err ⟨404, "Video not found"⟩
    | some v =>
      if !(v.canDownload.getD false) then .err ⟨403, "Download not allowed for this video"⟩
      else .redirect v.sourceUrl

/-- Body of the `GET /api/admin/stats` response. -/
structure Stats where
  totalVideos : Nat
  totalUsers : Nat
  totalViews : Nat
deriving DecidableEq, Repr

/-- `GET /api/admin/stats` handler: `requireAdmin`, then `totalVideos` is the
catalog length, `totalViews` sums `(video.views || 0)`, and `totalUsers`
is the literal 1249 written in the source (with a comment calling it a
placeholder that would need a user count query). -/
def statsHandler (principal : Option User) (store : List Video) :
    Except HttpErr Stats :=
  match requireAdmin principal with
  | .error e => .error e
  | .ok () =>
    .ok { totalVideos := store.length
        , totalUsers := 1249
        , totalViews := store.foldl (fun sum v => sum + v.views.getD 0) 0 }

/-- Verify callback of the passport `LocalStrategy` (`server/auth.ts`).
`comparePasswords` wraps an external bcrypt primitive, so it is a parameter
`verify`.  Both the missing-user branch and the failed-comparison branch
return the same `done(null, false)`, embedded as `none`. -/
def localStrategyVerify (store : List User) (verify : String → String → Bool)
    (email password : String) : Option User :=
  match getUserByEmail store email with
  | none => none
  | some u => if !(verify password u.password) then none else some u

/-- The object literal returned by `POST /api/register` on success. -/
def registerResponse (u : User) : List (String × JsonVal) :=
  [ ("id", .str u.id)
  , ("email", .str u.email)
  , ("avatarUrl", jsonOfOptStr u.avatarUrl)
  , ("role", .str u.role.toText)
  , ("createdAt", jsonOfOptNat u.createdAt)
  ]

/-- The object literal returned by `POST /api/login` on success. -/
def loginResponse (u : User) : List (String × JsonVal) :=
  [ ("id", .str u.id)
  , ("email", .str u.email)
  , ("avatarUrl", jsonOfOptStr u.avatarUrl)
  , ("role", .str u.role.toText)
  , ("createdAt", jsonOfOptNat u.createdAt)
  ]

/-- The object literal returned by `GET /api/user` when authenticated. -/
def sessionUserResponse (u : User) : List (String × JsonVal) :=
  [ ("id", .str u.id)
  , ("email", .str u.email)
  , ("avatarUrl", jsonOfOptStr u.avatarUrl)
  , ("role", .str u.role.toText)
  , ("createdAt", jsonOfOptNat u.createdAt)
  ]

/-- `storage.createUser`: insert `{ email, password }` into `users`; the
remaining columns take their schema defaults (`role` defaults to USER,
`avatarUrl` NULL, `id` generated, `createdAt` now). -/
def createUser (email passwordHash : String) (newId : String) (now : Nat) : User :=
  { id := newId
  , email := email
  , password := passwordHash
  , avatarUrl := none
  , role := Role.USER
  , createdAt := some now }

/-- `POST /api/register` handler: reject a falsy (absent or empty) email or
password with 400; reject an email that already has a user with 400; else
insert the new user with the hashed credential and answer 201 with the
register literal.  `hash` abstracts the external bcrypt hash.  Returns the
response and the user store after the request. -/
def registerHandler (store : List User) (hash : String → String)
    (newId : String) (now : Nat) (email password : Option String) :
    Except HttpErr (List (String × JsonVal)) × List User :=
  match email, password with
  | some e, some p =>
    if e = "" || p = "" then (.error ⟨400, "Email and password are required"⟩, store)
    else
      match getUserByEmail store e with
      | some _ => (.error ⟨400, "User with this email already exists"⟩, store)
      | none =>
        (.ok (registerResponse (createUser e (hash p) newId now)),
         store ++ [createUser e (hash p) newId now])
  | _, _ => (.error ⟨400, "Email and password are required"⟩, store)

/-- A JSON request body for the video mutation routes, before zod parsing.
Doubly-nested `Option` distinguishes an absent key (outer `none`) from a
key present with JSON null (inner `none`), matching a nullable column's
`.nullable().optional()` zod shape.  `title` and `sourceUrl` are
non-nullable columns, so present-with-null is a parse failure and the
field is a single `Option`.  `views` and `createdAt` keys may be supplied
by a caller but are outside both schemas (omitted from
`insertVideoSchema`, hence also from the update schema), and zod strips
unknown keys. -/
structure RawVideoBody where
  title : Option String
  description : Option (Option String)
  sourceUrl : Option String
  thumbnailUrl : Option (Option String)
  duration : Option (Option String)
  canPlay : Option (Option Bool)
  canShare : Option (Option Bool)
  canDownload : Option (Option Bool)
  views : Option Nat
  createdAt : Option Nat
deriving DecidableEq, Repr

/-- Parse result of `insertVideoSchema` (`shared/schema.ts`):
`createInsertSchema(videos)` minus id, createdAt, updatedAt, views.
`title` and `sourceUrl` are required strings; the nullable columns are
optional and nullable; no constraint beyond the type is imposed. -/
structure InsertVideo where
  title : String
  description : Option (Option String)
  sourceUrl : String
  thumbnailUrl : Option (Option String)
  duration : Option (Option String)
  canPlay : Option (Option Bool)
  canShare : Option (Option Bool)
  canDownload : Option (Option Bool)
deriving DecidableEq, Repr

/-- `insertVideoSchema.parse`: fails (ZodError, answered as 400) iff `title`
or `sourceUrl` is missing; every string, the empty string included, is
accepted; the `views` and `createdAt` keys are stripped. -/
def insertVideoParse (b : RawVideoBody) : Option InsertVideo :=
  match b.title, b.sourceUrl with
  | some t, some s =>
    some { title := t
         , description := b.description
         , sourceUrl := s
         , thumbnailUrl := b.thumbnailUrl
         , duration := b.duration
         , canPlay := b.canPlay
         , canShare := b.canShare
         , canDownload := b.canDownload }
  | _, _ => none

/-- `storage.createVideo`: insert the parsed fields; a key absent from the
insert takes the column default (`views` 0, `canPlay`/`canShare` true,
`canDownload` false, timestamps now, NULL for the defaultless nullable
text columns). -/
def createVideo (input : InsertVideo) (newId : String) (now : Nat) : Video :=
  { id := newId
  , title := input.title
  , description := input.description.getD none
  , sourceUrl := input.sourceUrl
  , thumbnailUrl := input.thumbnailUrl.getD none
  , duration := input.duration.getD none
  , views := some 0
  , canPlay := input.canPlay.getD (some true)
  , canShare := input.canShare.getD (some true)
  , canDownload := input.canDownload.getD (some false)
  , createdAt := some now
  , updatedAt := some now }

/-- `POST /api/admin/videos` handler: `requireAdmin`, parse the body with
`insertVideoSchema` (ZodError becomes 400 "Invalid video data"), insert,
answer 201 with the new row.  Returns the response and the catalog after
the request. -/
def createVideoHandler (principal : Option User) (store : List Video)
    (body : RawVideoBody) (newId : String) (now : Nat) :
    Except HttpErr Video × List Video :=
  match requireAdmin principal with
  | .error e => (.error e, store)
  | .ok () =>
    match insertVideoParse body with
    | none => (.error ⟨400, "Invalid video data"⟩, store)
    | some input => (.ok (createVideo input newId now), store ++ [createVideo input newId now])

/-- Parse result of `updateVideoSchema` (`shared/schema.ts`): the insert
shape with every field optional.  `views`, `createdAt`, `updatedAt` and
`id` are not part of the shape at all. -/
structure UpdateVideo where
  title : Option String
  description : Option (Option String)
  sourceUrl : Option String
  thumbnailUrl : Option (Option String)
  duration : Option (Option String)
  canPlay : Option (Option Bool)
  canShare : Option (Option Bool)
  canDownload : Option (Option Bool)
deriving DecidableEq, Repr

/-- `updateVideoSchema.parse`: every field is optional so parsing a
well-typed body always succeeds; the `views` and `createdAt` keys are
stripped because they are outside the schema shape. -/
def updateVideoParse (b : RawVideoBody) : UpdateVideo :=
  { title := b.title
  , description := b.description
  , sourceUrl := b.sourceUrl
  , thumbnailUrl := b.thumbnailUrl
  , duration := b.duration
  , canPlay := b.canPlay
  , canShare := b.canShare
  , canDownload := b.canDownload }

/-- `storage.updateVideo` applied to one row: `set({ ...video, updatedAt: now })`
— the spread contributes exactly the keys present in the parsed object, so
an absent key leaves the column as it was; `updatedAt` is always set. -/
def applyUpdate (v : Video) (u : UpdateVideo) (now : Nat) : Video :=
  { id := v.id
  , title := u.title.getD v.title
  , description := u.description.getD v.description
  , sourceUrl := u.sourceUrl.getD v.sourceUrl
  , thumbnailUrl := u.thumbnailUrl.getD v.thumbnailUrl
  , duration := u.duration.getD v.duration
  , views := v.views
  , canPlay := u.canPlay.getD v.canPlay
  , canShare := u.canShare.getD v.canShare
  , canDownload := u.canDownload.getD v.canDownload
  , createdAt := v.createdAt
  , updatedAt := some now }

/-- `storage.updateVideo` over the whole table: update every row whose id
matches and return the updated row (`undefined`, here `none`, when no row
matched). -/
def updateVideoStore (store : List Video) (id : String) (u : UpdateVideo) (now : Nat) :
    Option Video × List Video :=
  ((getVideo store id).map (fun v => applyUpdate v u now),
   store.map (fun v => if v.id == id then applyUpdate v u now else v))

/-- A concrete USER-role account, for witness instantiations. -/
def demoUser : User :=
  { id := "u-1", email := "user@example.com", password := "hash-u"
  , avatarUrl := none, role := Role.USER, createdAt := some 10 }

/-- A concrete ADMIN-role account, for witness instantiations. -/
def demoAdmin : User :=
  { id := "a-1", email := "admin@example.com", password := "hash-a"
  , avatarUrl := some "/uploads/a.png", role := Role.ADMIN, createdAt := some 5 }

/-- A concrete stored video, for witness instantiations. -/
def demoVideo : Video :=
  { id := "v-1", title := "First", description := some "about v1"
  , sourceUrl := "http://cdn/v1.mp4", thumbnailUrl := none, duration := some "3:21"
  , views := some 4, canPlay := some true, canShare := some true
  , canDownload := some false, createdAt := some 20, updatedAt := some 20 }

/-- C1: for every stored video and every principal, a successful
`GET /api/videos` response contains no `sourceUrl` key in any of its
objects (and an unauthenticated request gets no objects at all, so the
property holds for every principal state). -/
theorem C1_list_view_never_has_sourceUrl (p : Option User) (store : List Video)
    (resp : List (List (String × JsonVal)))
    (h : listVideosHandler p store = .ok resp) :
    ∀ o ∈ resp, ∀ kv ∈ o, kv.1 ≠ "sourceUrl" := by
  cases p with
  | none => simp [listVideosHandler, requireAuth] at h
  | some u =>
    simp only [listVideosHandler, requireAuth, Except.ok.injEq] at h
    subst h
    intro o ho kv hkv
    rcases List.mem_map.mp ho with ⟨v, _, rfl⟩
    simp only [projectForList, List.mem_cons, List.not_mem_nil, or_false] at hkv
    rcases hkv with h1|h1|h1|h1|h1|h1|h1|h1|h1|h1 <;> subst h1 <;> simp

/-- C1 witness: the theorem applied to a concrete principal and catalog —
the one listed object scans clean of the `sourceUrl` key. -/
theorem C1_witness :
    (projectForList demoVideo).all (fun kv => !(kv.1 == "sourceUrl")) = true := by
  have h := C1_list_view_never_has_sourceUrl (some demoUser) [demoVideo]
    [projectForList demoVideo] rfl
  rw [List.all_eq_true]
  intro kv hkv
  have hne := h (projectForList demoVideo) (by simp) kv hkv
  simpa using hne

/-- C2 counterexample: at Admin level with no principal the code answers
403 "Admin access required" (the Forbidden shape), not the claimed
401 Unauthenticated rejection. -/
theorem C2_counterexample_absent_principal_admin :
    authorize none RequiredLevel.Admin = Except.error ⟨403, "Admin access required"⟩ ∧
    authorize none RequiredLevel.Admin ≠ Except.error ⟨401, "Authentication required"⟩ := by
  refine ⟨rfl, ?_⟩
  intro h
  simp [authorize, requireAdmin] at h

/-- C2 (amended): the full decision table of the gates as implemented —
Public always allows; Authenticated allows exactly a present principal and
rejects absence with 401; Admin allows exactly a present ADMIN principal
and rejects both an absent principal and a present wrong-role principal
with the same 403 response. -/
theorem C2_authorize_table (p : Option User) (u a : User)
    (hu : u.role = Role.USER) (ha : a.role = Role.ADMIN) :
    authorize p RequiredLevel.Public = Except.ok () ∧
    authorize none RequiredLevel.Authenticated = Except.error ⟨401, "Authentication required"⟩ ∧
    authorize (some u) RequiredLevel.Authenticated = Except.ok () ∧
    authorize (some a) RequiredLevel.Authenticated = Except.ok () ∧
    authorize none RequiredLevel.Admin = Except.error ⟨403, "Admin access required"⟩ ∧
    authorize (some u) RequiredLevel.Admin = Except.error ⟨403, "Admin access required"⟩ ∧
    authorize (some a) RequiredLevel.Admin = Except.ok () := by
  refine ⟨rfl, rfl, rfl, rfl, rfl, ?_, ?_⟩
  · simp [authorize, requireAdmin, hu]
  · simp [authorize, requireAdmin, ha]

/-- C2 witness: the amended table at concrete USER and ADMIN accounts. -/
theorem C2_witness :
    authorize (some demoUser) RequiredLevel.Public = Except.ok () ∧
    authorize none RequiredLevel.Authenticated = Except.error ⟨401, "Authentication required"⟩ ∧
    authorize (some demoUser) RequiredLevel.Authenticated = Except.ok () ∧
    authorize (some demoAdmin) RequiredLevel.Authenticated = Except.ok () ∧
    authorize none RequiredLevel.Admin = Except.error ⟨403, "Admin access required"⟩ ∧
    authorize (some demoUser) RequiredLevel.Admin = Except.error ⟨403, "Admin access required"⟩ ∧
    authorize (some demoAdmin) RequiredLevel.Admin = Except.ok () :=
  C2_authorize_table (some demoUser) demoUser demoAdmin rfl rfl

/-- A second concrete stored video, downloadable, for witness instantiations. -/
def demoVideo2 : Video :=
  { id := "v-2", title := "Second", description := none
  , sourceUrl := "http://cdn/v2.mp4", thumbnailUrl := some "/t/v2.png", duration := none
  , views := some 7, canPlay := some true, canShare := some false
  , canDownload := some true, createdAt := some 30, updatedAt := some 31 }

/-- C3: on an existing video, an authenticated download request succeeds
(redirects to the video's `sourceUrl`) exactly when the stored
`canDownload` flag is true, and the outcome is identical for any two
authenticated principals — the role is never consulted. -/
theorem C3_download_iff_canDownload (u w : User) (store : List Video) (id : String)
    (v : Video) (hfind : getVideo store id = some v) :
    (downloadHandler (some u) store id = DownloadRes.redirect v.sourceUrl ↔
      v.canDownload = some true) ∧
    downloadHandler (some u) store id = downloadHandler (some w) store id := by
  refine ⟨?_, rfl⟩
  simp only [downloadHandler, requireAuth, hfind]
  cases hcd : v.canDownload with
  | none => simp
  | some b => cases b <;> simp

/-- C3 witness: an ADMIN principal against a video with `canDownload=false`
is denied just like a USER principal would be. -/
theorem C3_witness :
    (downloadHandler (some demoAdmin) [demoVideo] "v-1" =
        DownloadRes.redirect demoVideo.sourceUrl ↔ demoVideo.canDownload = some true) ∧
    downloadHandler (some demoAdmin) [demoVideo] "v-1" =
      downloadHandler (some demoUser) [demoVideo] "v-1" :=
  C3_download_iff_canDownload demoAdmin demoUser [demoVideo] "v-1" demoVideo (by decide)

/-- C4: evaluating the stats handler on a concrete admin request shows
`totalVideos` and `totalViews` computed from the catalog but `totalUsers`
equal to the hardcoded literal 1249, which differs from the size of a user
store with two accounts — the handler never consults the user store at
all. -/
theorem C4_totalUsers_is_placeholder :
    statsHandler (some demoAdmin) [demoVideo, demoVideo2] =
      Except.ok { totalVideos := 2, totalUsers := 1249, totalViews := 11 } ∧
    [demoUser, demoAdmin].length = 2 ∧ (1249 : Nat) ≠ 2 :=
  ⟨rfl, rfl, by decide⟩

/-- A create body whose `title` and `sourceUrl` keys are present but hold
the empty string. -/
def emptyStringsBody : RawVideoBody :=
  { title := some "", description := none, sourceUrl := some ""
  , thumbnailUrl := none, duration := none, canPlay := none, canShare := none
  , canDownload := none, views := none, createdAt := none }

/-- C5 counterexample: a create request whose `title` and `sourceUrl` are
both the empty string passes `insertVideoSchema` and creates a video —
the schema checks only that the keys are present strings, so the claimed
non-emptiness validation does not happen. -/
theorem C5_counterexample_empty_strings_create :
    createVideoHandler (some demoAdmin) [] emptyStringsBody "v-9" 40 =
      (Except.ok
        { id := "v-9", title := "", description := none, sourceUrl := ""
        , thumbnailUrl := none, duration := none, views := some 0
        , canPlay := some true, canShare := some true, canDownload := some false
        , createdAt := some 40, updatedAt := some 40 },
       [{ id := "v-9", title := "", description := none, sourceUrl := ""
        , thumbnailUrl := none, duration := none, views := some 0
        , canPlay := some true, canShare := some true, canDownload := some false
        , createdAt := some 40, updatedAt := some 40 }]) := rfl

/-- C5 (amended): create fails with the 400 validation response exactly
when the `title` key or the `sourceUrl` key is absent from the body — a
present string passes even when empty — and the catalog is unchanged on
failure and extended by exactly the created row on success. -/
theorem C5_create_validation (p : User) (hp : p.role = Role.ADMIN)
    (store : List Video) (b : RawVideoBody) (newId : String) (now : Nat) :
    (insertVideoParse b = none ↔ (b.title = none ∨ b.sourceUrl = none)) ∧
    (insertVideoParse b = none →
      createVideoHandler (some p) store b newId now =
        (.error ⟨400, "Invalid video data"⟩, store)) ∧
    (∀ input, insertVideoParse b = some input →
      createVideoHandler (some p) store b newId now =
        (.ok (createVideo input newId now), store ++ [createVideo input newId now])) := by
  refine ⟨?_, ?_, ?_⟩
  · cases ht : b.title <;> cases hs : b.sourceUrl <;> simp [insertVideoParse, ht, hs]
  · intro hnone
    simp [createVideoHandler, requireAdmin, hp, hnone]
  · intro input hsome
    simp [createVideoHandler, requireAdmin, hp, hsome]

/-- C5 witness: with `title` absent, parsing fails and the handler rejects
with 400, leaving the catalog unchanged. -/
theorem C5_witness :
    (insertVideoParse { emptyStringsBody with title := none } = none ↔
      ({ emptyStringsBody with title := none } : RawVideoBody).title = none ∨
      ({ emptyStringsBody with title := none } : RawVideoBody).sourceUrl = none) ∧
    (insertVideoParse { emptyStringsBody with title := none } = none →
      createVideoHandler (some demoAdmin) [demoVideo] { emptyStringsBody with title := none } "v-9" 40 =
        (.error ⟨400, "Invalid video data"⟩, [demoVideo])) ∧
    (∀ input, insertVideoParse { emptyStringsBody with title := none } = some input →
      createVideoHandler (some demoAdmin) [demoVideo] { emptyStringsBody with title := none } "v-9" 40 =
        (.ok (createVideo input "v-9" 40), [demoVideo] ++ [createVideo input "v-9" 40])) :=
  C5_create_validation demoAdmin rfl [demoVideo] { emptyStringsBody with title := none } "v-9" 40

/-- Row transformation performed by `PUT /api/admin/videos/:id` on the
matched row: parse the body with `updateVideoSchema`, then apply
`storage.updateVideo`'s `set({ ...video, updatedAt: now })`. -/
def putVideoRow (v : Video) (b : RawVideoBody) (now : Nat) : Video :=
  applyUpdate v (updateVideoParse b) now

/-- C6: the update path changes exactly the supplied fields plus
`updatedAt`; every unsupplied field keeps its prior value, and `views`,
`createdAt` and `id` are unchanged unconditionally — whatever `views` or
`createdAt` the caller put in the body is stripped by the schema. -/
theorem C6_update_only_supplied_fields (v : Video) (b : RawVideoBody) (now : Nat) :
    (putVideoRow v b now).views = v.views ∧
    (putVideoRow v b now).createdAt = v.createdAt ∧
    (putVideoRow v b now).id = v.id ∧
    (putVideoRow v b now).updatedAt = some now ∧
    (b.title = none → (putVideoRow v b now).title = v.title) ∧
    (∀ t, b.title = some t → (putVideoRow v b now).title = t) ∧
    (b.description = none → (putVideoRow v b now).description = v.description) ∧
    (∀ d, b.description = some d → (putVideoRow v b now).description = d) ∧
    (b.sourceUrl = none → (putVideoRow v b now).sourceUrl = v.sourceUrl) ∧
    (∀ s, b.sourceUrl = some s → (putVideoRow v b now).sourceUrl = s) ∧
    (b.thumbnailUrl = none → (putVideoRow v b now).thumbnailUrl = v.thumbnailUrl) ∧
    (∀ t, b.thumbnailUrl = some t → (putVideoRow v b now).thumbnailUrl = t) ∧
    (b.duration = none → (putVideoRow v b now).duration = v.duration) ∧
    (∀ d, b.duration = some d → (putVideoRow v b now).duration = d) ∧
    (b.canPlay = none → (putVideoRow v b now).canPlay = v.canPlay) ∧
    (∀ c, b.canPlay = some c → (putVideoRow v b now).canPlay = c) ∧
    (b.canShare = none → (putVideoRow v b now).canShare = v.canShare) ∧
    (∀ c, b.canShare = some c → (putVideoRow v b now).canShare = c) ∧
    (b.canDownload = none → (putVideoRow v b now).canDownload = v.canDownload) ∧
    (∀ c, b.canDownload = some c → (putVideoRow v b now).canDownload = c) := by
  refine ⟨rfl, rfl, rfl, rfl, ?_, ?_, ?_, ?_, ?_, ?_, ?_, ?_, ?_, ?_, ?_, ?_, ?_, ?_, ?_, ?_⟩ <;>
    first
      | (intro h; simp [putVideoRow, applyUpdate, updateVideoParse, h])
      | (intro x h; simp [putVideoRow, applyUpdate, updateVideoParse, h])

/-- C6 witness: updating only the title (while the body also smuggles in
`views` and `createdAt` values) leaves description, views and createdAt at
their prior values and refreshes `updatedAt`. -/
theorem C6_witness :
    (putVideoRow demoVideo
        { title := some "New", description := none, sourceUrl := none
        , thumbnailUrl := none, duration := none, canPlay := none, canShare := none
        , canDownload := none, views := some 999, createdAt := some 1 } 50).views =
      demoVideo.views ∧
    (putVideoRow demoVideo
        { title := some "New", description := none, sourceUrl := none
        , thumbnailUrl := none, duration := none, canPlay := none, canShare := none
        , canDownload := none, views := some 999, createdAt := some 1 } 50).createdAt =
      demoVideo.createdAt ∧
    (putVideoRow demoVideo
        { title := some "New", description := none, sourceUrl := none
        , thumbnailUrl := none, duration := none, canPlay := none, canShare := none
        , canDownload := none, views := some 999, createdAt := some 1 } 50).title = "New" ∧
    (putVideoRow demoVideo
        { title := some "New", description := none, sourceUrl := none
        , thumbnailUrl := none, duration := none, canPlay := none, canShare := none
        , canDownload := none, views := some 999, createdAt := some 1 } 50).description =
      demoVideo.description ∧
    (putVideoRow demoVideo
        { title := some "New", description := none, sourceUrl := none
        , thumbnailUrl := none, duration := none, canPlay := none, canShare := none
        , canDownload := none, views := some 999, createdAt := some 1 } 50).updatedAt =
      some 50 := by
  have h := C6_update_only_supplied_fields demoVideo
    { title := some "New", description := none, sourceUrl := none
    , thumbnailUrl := none, duration := none, canPlay := none, canShare := none
    , canDownload := none, views := some 999, createdAt := some 1 } 50
  exact ⟨h.1, h.2.1, h.2.2.2.2.2.1 "New" rfl, h.2.2.2.2.2.2.1 rfl, h.2.2.2.1⟩

/-- After the atomic increment, looking the video up again finds the same
row with `views + 1` (NULL stays NULL, per SQL arithmetic). -/
theorem getVideo_incrementVideoViews (store : List Video) (id : String) (v : Video)
    (h : getVideo store id = some v) :
    getVideo (incrementVideoViews store id) id =
      some { v with views := v.views.map (· + 1) } := by
  induction store with
  | nil => simp [getVideo] at h
  | cons w ws ih =>
    cases hw : (w.id == id) with
    | true =>
      have hv : w = v := by simpa [getVideo, List.find?, hw] using h
      subst hv
      simp [getVideo, incrementVideoViews, List.find?, hw]
    | false =>
      have h' : getVideo ws id = some v := by
        simpa [getVideo, List.find?, hw] using h
      have hrec := ih h'
      simpa [getVideo, incrementVideoViews, List.find?, hw] using hrec

/-- Rows whose id differs from the incremented id are untouched by the
increment. -/
theorem mem_incrementVideoViews_of_ne (store : List Video) (id : String) (w : Video)
    (hmem : w ∈ store) (hne : w.id ≠ id) : w ∈ incrementVideoViews store id := by
  have hrw : (if (w.id == id) = true then { w with views := w.views.map (· + 1) } else w) = w :=
    if_neg (by simpa using hne)
  rw [incrementVideoViews]
  exact hrw ▸ List.mem_map_of_mem _ hmem

/-- C7: a successful `GET /api/videos/:id` answers the detail view whose
`views` field is the prior count plus one, and the stored row's count goes
up by exactly one (other rows untouched); on an absent id the handler
answers 404 and the catalog is unchanged. -/
theorem C7_detail_view_increment (u : User) (store : List Video) (id : String) :
    (∀ v n, getVideo store id = some v → v.views = some n →
      (detailHandler (some u) store id).1 = .ok (projectForDetail v) ∧
      ("views", JsonVal.num (n + 1)) ∈ projectForDetail v ∧
      getVideo (detailHandler (some u) store id).2 id = some { v with views := some (n + 1) } ∧
      (∀ w ∈ store, w.id ≠ id → w ∈ (detailHandler (some u) store id).2)) ∧
    (getVideo store id = none →
      detailHandler (some u) store id = (.error ⟨404, "Video not found"⟩, store)) := by
  constructor
  · intro v n hv hn
    have hid : v.id = id := by
      have := List.find?_some hv
      simpa using this
    have hsnd : (detailHandler (some u) store id).2 = incrementVideoViews store id := by
      simp [detailHandler, requireAuth, hv, hid]
    refine ⟨?_, ?_, ?_, ?_⟩
    · simp [detailHandler, requireAuth, hv]
    · simp [projectForDetail, hn]
    · rw [hsnd, getVideo_incrementVideoViews store id v hv]
      simp [hn]
    · intro w hw hwne
      rw [hsnd]
      exact mem_incrementVideoViews_of_ne store id w hw hwne
  · intro hnone
    simp [detailHandler, requireAuth, hnone]

/-- C7 witness: viewing the first demo video (4 prior views) returns a view
reporting 5 and stores 5, and the 404 branch at an absent id leaves the
catalog as it was. -/
theorem C7_witness :
    ((detailHandler (some demoUser) [demoVideo, demoVideo2] "v-1").1 =
        .ok (projectForDetail demoVideo) ∧
      ("views", JsonVal.num 5) ∈ projectForDetail demoVideo ∧
      getVideo (detailHandler (some demoUser) [demoVideo, demoVideo2] "v-1").2 "v-1" =
        some { demoVideo with views := some 5 } ∧
      (∀ w ∈ [demoVideo, demoVideo2], w.id ≠ "v-1" →
        w ∈ (detailHandler (some demoUser) [demoVideo, demoVideo2] "v-1").2)) ∧
    detailHandler (some demoUser) [demoVideo, demoVideo2] "missing" =
      (.error ⟨404, "Video not found"⟩, [demoVideo, demoVideo2]) :=
  ⟨(C7_detail_view_increment demoUser [demoVideo, demoVideo2] "v-1").1
      demoVideo 4 (by decide) rfl,
   (C7_detail_view_increment demoUser [demoVideo, demoVideo2] "missing").2 (by decide)⟩

/-- C8: an attempt whose email matches no stored user and an attempt whose
email matches a user but whose credential fails verification produce the
identical failure value — both branches of the strategy callback answer
`done(null, false)`, so the error surface cannot reveal whether the email
exists. -/
theorem C8_auth_failures_identical (s1 s2 : List User)
    (vf : String → String → Bool) (e1 p1 e2 p2 : String) (u : User)
    (h1 : getUserByEmail s1 e1 = none)
    (h2 : getUserByEmail s2 e2 = some u)
    (h3 : vf p2 u.password = false) :
    localStrategyVerify s1 vf e1 p1 = localStrategyVerify s2 vf e2 p2 ∧
    localStrategyVerify s1 vf e1 p1 = none := by
  constructor
  · simp [localStrategyVerify, h1, h2, h3]
  · simp [localStrategyVerify, h1]

/-- C8 witness: an unknown email against an empty store and a known email
with a rejected credential both come back as the same `none`. -/
theorem C8_witness :
    localStrategyVerify [] (fun _ _ => false) "ghost@example.com" "pw" =
      localStrategyVerify [demoUser] (fun _ _ => false) "user@example.com" "pw" ∧
    localStrategyVerify [] (fun _ _ => false) "ghost@example.com" "pw" = none :=
  C8_auth_failures_identical [] [demoUser] (fun _ _ => false)
    "ghost@example.com" "pw" "user@example.com" "pw" demoUser rfl (by decide) rfl

/-- C9: registering a non-empty email that already belongs to a stored user
answers the conflict response and returns the user store exactly as it
was — no user is created and the existing user's `password` hash (and
every other field) is untouched. -/
theorem C9_register_existing_email_conflict (store : List User)
    (hash : String → String) (newId : String) (now : Nat) (e p : String) (ex : User)
    (he : e ≠ "") (hp : p ≠ "") (hex : getUserByEmail store e = some ex) :
    registerHandler store hash newId now (some e) (some p) =
      (.error ⟨400, "User with this email already exists"⟩, store) := by
  simp [registerHandler, he, hp, hex]

/-- C9 witness: re-registering the demo user's email fails with the conflict
response and the store still holds exactly the original user record, hash
included. -/
theorem C9_witness :
    registerHandler [demoUser] (fun p => p ++ "-hashed") "u-2" 60
        (some "user@example.com") (some "newpw") =
      (.error ⟨400, "User with this email already exists"⟩, [demoUser]) :=
  C9_register_existing_email_conflict [demoUser] (fun p => p ++ "-hashed") "u-2" 60
    "user@example.com" "newpw" demoUser (by decide) (by decide) (by decide)

/-- C10: the register, login and current-session responses each expose
exactly the keys id, email, avatarUrl, role, createdAt — in particular the
stored `password` hash is never among them. -/
theorem C10_user_responses_exact_fields (u : User) :
    (registerResponse u).map Prod.fst = ["id", "email", "avatarUrl", "role", "createdAt"] ∧
    (loginResponse u).map Prod.fst = ["id", "email", "avatarUrl", "role", "createdAt"] ∧
    (sessionUserResponse u).map Prod.fst = ["id", "email", "avatarUrl", "role", "createdAt"] ∧
    "password" ∉ (registerResponse u).map Prod.fst ∧
    "password" ∉ (loginResponse u).map Prod.fst ∧
    "password" ∉ (sessionUserResponse u).map Prod.fst :=
  ⟨rfl, rfl, rfl, by simp [registerResponse], by simp [loginResponse],
   by simp [sessionUserResponse]⟩

end VideoVault
